import Mathlib

/-!
# Verification of the MC723 MIPS simulator's microarchitectural analyzer

Shallow embedding of `src/mips/mips_isa.cpp`: the integer core's instruction
behaviors (`ac_behavior(...)`) and the analyzer singleton (`struct variables`)
with its hazard detector, branch predictors and superscalar pair checker.

Machine integers are modelled as `Nat` (unsigned) and `Int` (signed) with
explicit reduction modulo `2^32` where the C++ code wraps.  Fatal paths
(`exit(EXIT_FAILURE)` on overflow, C++ undefined behavior on division by
zero) are modelled with `Except`.
-/

namespace MipsSim

/-- Wrap a signed value to its 32-bit two's-complement bit pattern (a `Nat`
below `2^32`), as C++ conversion from `int` to `unsigned int` does. -/
def u32 (x : Int) : Nat := (x % 4294967296).toNat

/-- Reduce an unsigned value modulo `2^32`, as storage into a 32-bit word does. -/
def u32n (x : Nat) : Nat := x % 4294967296

/-- Read a 32-bit bit pattern as a signed two's-complement `Int`
(the C++ cast `(ac_Sword)x`). -/
def toSigned (x : Nat) : Int :=
  if x < 2147483648 then (x : Int) else (x : Int) - 4294967296

/-- The sign bit test `x & 0x80000000` used by the overflow checks. -/
def signBit (x : Nat) : Nat := x &&& 2147483648

/-- `imm & 0x80000000` for a signed operand: the operand is converted to
`unsigned` first (C++ usual arithmetic conversions). -/
def signBitI (x : Int) : Nat := signBit (u32 x)

/-- Sign extension of a byte, as storing into `char` and casting
`(ac_Sword)byte` does in `ac_behavior(lb)`. -/
def sext8 (b : Nat) : Nat := if b < 128 then b else b + 4294967040

/-- Sign extension of a halfword, as `ac_behavior(lh)` does via
`short int half`. -/
def sext16 (h : Nat) : Nat := if h < 32768 then h else h + 4294901760

/-- Architectural state of the integer core: register bank `RB`, the
`hi`/`lo` multiplier registers, `pc` (`ac_pc`), `npc`, and the external
word store `DM` (addresses are byte addresses as in the source; `DM a`
is the 32-bit word `DM.read(a)` returns). -/
structure Core where
  RB : Nat → Nat
  hi : Nat
  lo : Nat
  pc : Nat
  npc : Nat
  DM : Nat → Nat

/-- Modelled from the spec: the register bank's write port.  The bank itself
(`ac_regbank RB`, declared in `mips_isa.H` / the ArchC library, not under
`src/`) is the missing piece; the spec states "`R[0]` is always zero; any
write is silently discarded", so a write to index 0 leaves the bank
unchanged.  Writes to any other index update that entry. -/
def regWrite (r : Nat → Nat) (i v : Nat) : Nat → Nat :=
  if i = 0 then r else fun j => if j = i then v else r j

/-- `DM.write(a, v)`: update the external word store. -/
def dmWrite (m : Nat → Nat) (a v : Nat) : Nat → Nat :=
  fun x => if x = a then v else m x

/-- The decoded instructions whose `ac_behavior` bodies `src/mips/mips_isa.cpp`
defines.  Register fields are the decoded indices; `imm` is the 16-bit
immediate already sign-extended to a signed 32-bit value (ArchC decodes the
`imm` field of `Type_I` as a signed `int`). -/
inductive Instr where
  | lb (rt rs : Nat) (imm : Int)
  | lbu (rt rs : Nat) (imm : Int)
  | lh (rt rs : Nat) (imm : Int)
  | lhu (rt rs : Nat) (imm : Int)
  | lw (rt rs : Nat) (imm : Int)
  | lwl (rt rs : Nat) (imm : Int)
  | lwr (rt rs : Nat) (imm : Int)
  | sb (rt rs : Nat) (imm : Int)
  | sh (rt rs : Nat) (imm : Int)
  | sw (rt rs : Nat) (imm : Int)
  | swl (rt rs : Nat) (imm : Int)
  | swr (rt rs : Nat) (imm : Int)
  | addi (rt rs : Nat) (imm : Int)
  | addiu (rt rs : Nat) (imm : Int)
  | slti (rt rs : Nat) (imm : Int)
  | sltiu (rt rs : Nat) (imm : Int)
  | andi (rt rs : Nat) (imm : Int)
  | ori (rt rs : Nat) (imm : Int)
  | xori (rt rs : Nat) (imm : Int)
  | lui (rt : Nat) (imm : Int)
  | add (rd rs rt : Nat)
  | addu (rd rs rt : Nat)
  | sub (rd rs rt : Nat)
  | subu (rd rs rt : Nat)
  | slt (rd rs rt : Nat)
  | sltu (rd rs rt : Nat)
  | instr_and (rd rs rt : Nat)
  | instr_or (rd rs rt : Nat)
  | instr_xor (rd rs rt : Nat)
  | instr_nor (rd rs rt : Nat)
  | sll (rd rt shamt : Nat)
  | srl (rd rt shamt : Nat)
  | sra (rd rt shamt : Nat)
  | sllv (rd rt rs : Nat)
  | srlv (rd rt rs : Nat)
  | srav (rd rt rs : Nat)
  | mult (rs rt : Nat)
  | multu (rs rt : Nat)
  | div (rs rt : Nat)
  | divu (rs rt : Nat)
  | mfhi (rd : Nat)
  | mthi (rs : Nat)
  | mflo (rd : Nat)
  | mtlo (rs : Nat)
  | j (addr : Nat)
  | jal (addr : Nat)
  | jr (rs : Nat)
  | jalr (rd rs : Nat)
  | beq (rs rt : Nat) (imm : Int)
  | bne (rs rt : Nat) (imm : Int)
  | blez (rs : Nat) (imm : Int)
  | bgtz (rs : Nat) (imm : Int)
  | bltz (rs : Nat) (imm : Int)
  | bgez (rs : Nat) (imm : Int)
  | bltzal (rs : Nat) (imm : Int)
  | bgezal (rs : Nat) (imm : Int)
  | sys_call
  | instr_break

/-- The `beq` predicate from `ac_behavior(beq)`: `RB[rs] == RB[rt]`,
evaluated on the executed register values. -/
def beq_cond (c : Core) (rs rt : Nat) : Bool := c.RB rs == c.RB rt

/-- The `bne` predicate from `ac_behavior(bne)`: `RB[rs] != RB[rt]`. -/
def bne_cond (c : Core) (rs rt : Nat) : Bool := c.RB rs != c.RB rt

/-- The `blez` predicate: `(RB[rs] == 0) || (RB[rs] & 0x80000000)`. -/
def blez_cond (c : Core) (rs : Nat) : Bool :=
  c.RB rs == 0 || signBit (c.RB rs) != 0

/-- The `bgtz` predicate: `!(RB[rs] & 0x80000000) && (RB[rs] != 0)`. -/
def bgtz_cond (c : Core) (rs : Nat) : Bool :=
  signBit (c.RB rs) == 0 && c.RB rs != 0

/-- The `bltz` predicate: `RB[rs] & 0x80000000`. -/
def bltz_cond (c : Core) (rs : Nat) : Bool := signBit (c.RB rs) != 0

/-- The `bgez` predicate: `!(RB[rs] & 0x80000000)`. -/
def bgez_cond (c : Core) (rs : Nat) : Bool := signBit (c.RB rs) == 0

/-- A branch target `ac_pc + (imm << 2)` (pc of the delay slot plus the
shifted immediate), wrapped to 32 bits. -/
def branchTarget (c : Core) (imm : Int) : Nat := u32 ((c.pc : Int) + imm * 4)

/-- One instruction-specific `ac_behavior` body, applied to the core state.
The fatal `exit(EXIT_FAILURE)` paths of `add`/`addi`/`instr_break` and the
C++ undefined behavior of division by a zero divisor (and of
`INT_MIN / -1`) are modelled as `Except.error`. -/
def execInst : Instr → Core → Except String Core
  | .lb rt rs imm, c =>
    let address := u32 ((c.RB rs : Int) + imm)
    let offset := address &&& 3
    let byte := (u32n (c.DM (address &&& 4294967292)) >>> ((3 - offset) * 8)) &&& 255
    .ok { c with RB := regWrite c.RB rt (sext8 byte) }
  | .lbu rt rs imm, c =>
    let address := u32 ((c.RB rs : Int) + imm)
    let offset := address &&& 3
    let byte := (u32n (c.DM (address &&& 4294967292)) >>> ((3 - offset) * 8)) &&& 255
    .ok { c with RB := regWrite c.RB rt byte }
  | .lh rt rs imm, c =>
    let address := u32 ((c.RB rs : Int) + imm)
    let offset := (address &&& 3) >>> 1
    let half := (u32n (c.DM (address &&& 4294967292)) >>> ((1 - offset) * 16)) &&& 65535
    .ok { c with RB := regWrite c.RB rt (sext16 half) }
  | .lhu rt rs imm, c =>
    let address := u32 ((c.RB rs : Int) + imm)
    let offset := (address &&& 3) >>> 1
    let half := (u32n (c.DM (address &&& 4294967292)) >>> ((1 - offset) * 16)) &&& 65535
    .ok { c with RB := regWrite c.RB rt half }
  | .lw rt rs imm, c =>
    .ok { c with RB := regWrite c.RB rt (u32n (c.DM (u32 ((c.RB rs : Int) + imm)))) }
  | .lwl rt rs imm, c =>
    let addr := u32 ((c.RB rs : Int) + imm)
    let offset := (addr &&& 3) * 8
    let data := u32n (u32n (c.DM (addr &&& 4294967292)) <<< offset)
    .ok { c with RB := regWrite c.RB rt (data ||| (c.RB rt &&& ((1 <<< offset) - 1))) }
  | .lwr rt rs imm, c =>
    let addr := u32 ((c.RB rs : Int) + imm)
    let offset := (3 - (addr &&& 3)) * 8
    let data := u32n (c.DM (addr &&& 4294967292)) >>> offset
    .ok { c with RB := regWrite c.RB rt (data ||| (c.RB rt &&& u32n (4294967295 <<< (32 - offset)))) }
  | .sb rt rs imm, c =>
    let address := u32 ((c.RB rs : Int) + imm)
    let off := (3 - (address &&& 3)) * 8
    let byte := c.RB rt &&& 255
    let data := (u32n (c.DM (address &&& 4294967292)) &&& (4294967295 - (255 <<< off))) ||| (byte <<< off)
    .ok { c with DM := dmWrite c.DM (address &&& 4294967292) data }
  | .sh rt rs imm, c =>
    let address := u32 ((c.RB rs : Int) + imm)
    let off := (1 - ((address &&& 3) >>> 1)) * 16
    let half := c.RB rt &&& 65535
    let data := (u32n (c.DM (address &&& 4294967292)) &&& (4294967295 - (65535 <<< off))) ||| (half <<< off)
    .ok { c with DM := dmWrite c.DM (address &&& 4294967292) data }
  | .sw rt rs imm, c =>
    .ok { c with DM := dmWrite c.DM (u32 ((c.RB rs : Int) + imm)) (c.RB rt) }
  | .swl rt rs imm, c =>
    let addr := u32 ((c.RB rs : Int) + imm)
    let offset := (addr &&& 3) * 8
    let data := (c.RB rt >>> offset) |||
      (u32n (c.DM (addr &&& 4294967292)) &&& u32n (4294967295 <<< (32 - offset)))
    .ok { c with DM := dmWrite c.DM (addr &&& 4294967292) data }
  | .swr rt rs imm, c =>
    let addr := u32 ((c.RB rs : Int) + imm)
    let offset := (3 - (addr &&& 3)) * 8
    let data := u32n (c.RB rt <<< offset) |||
      (u32n (c.DM (addr &&& 4294967292)) &&& ((1 <<< offset) - 1))
    .ok { c with DM := dmWrite c.DM (addr &&& 4294967292) data }
  | .addi rt rs imm, c =>
    let c1 : Core := { c with RB := regWrite c.RB rt (u32 ((c.RB rs : Int) + imm)) }
    if signBit (c1.RB rs) = signBitI imm && signBitI imm ≠ signBit (c1.RB rt) then
      .error "EXCEPTION(addi): integer overflow."
    else
      .ok c1
  | .addiu rt rs imm, c =>
    .ok { c with RB := regWrite c.RB rt (u32 ((c.RB rs : Int) + imm)) }
  | .slti rt rs imm, c =>
    .ok { c with RB := regWrite c.RB rt (if toSigned (c.RB rs) < imm then 1 else 0) }
  | .sltiu rt rs imm, c =>
    .ok { c with RB := regWrite c.RB rt (if c.RB rs < u32 imm then 1 else 0) }
  | .andi rt rs imm, c =>
    .ok { c with RB := regWrite c.RB rt (c.RB rs &&& (u32 imm &&& 65535)) }
  | .ori rt rs imm, c =>
    .ok { c with RB := regWrite c.RB rt (c.RB rs ||| (u32 imm &&& 65535)) }
  | .xori rt rs imm, c =>
    .ok { c with RB := regWrite c.RB rt (c.RB rs ^^^ (u32 imm &&& 65535)) }
  | .lui rt imm, c =>
    .ok { c with RB := regWrite c.RB rt (u32 (imm * 65536)) }
  | .add rd rs rt, c =>
    let c1 : Core := { c with RB := regWrite c.RB rd (u32n (c.RB rs + c.RB rt)) }
    if signBit (c1.RB rs) = signBit (c1.RB rd) && signBit (c1.RB rd) ≠ signBit (c1.RB rt) then
      .error "EXCEPTION(add): integer overflow."
    else
      .ok c1
  | .addu rd rs rt, c =>
    .ok { c with RB := regWrite c.RB rd (u32n (c.RB rs + c.RB rt)) }
  | .sub rd rs rt, c =>
    .ok { c with RB := regWrite c.RB rd (u32 ((c.RB rs : Int) - (c.RB rt : Int))) }
  | .subu rd rs rt, c =>
    .ok { c with RB := regWrite c.RB rd (u32 ((c.RB rs : Int) - (c.RB rt : Int))) }
  | .slt rd rs rt, c =>
    .ok { c with RB := regWrite c.RB rd (if toSigned (c.RB rs) < toSigned (c.RB rt) then 1 else 0) }
  | .sltu rd rs rt, c =>
    .ok { c with RB := regWrite c.RB rd (if c.RB rs < c.RB rt then 1 else 0) }
  | .instr_and rd rs rt, c =>
    .ok { c with RB := regWrite c.RB rd (c.RB rs &&& c.RB rt) }
  | .instr_or rd rs rt, c =>
    .ok { c with RB := regWrite c.RB rd (c.RB rs ||| c.RB rt) }
  | .instr_xor rd rs rt, c =>
    .ok { c with RB := regWrite c.RB rd (c.RB rs ^^^ c.RB rt) }
  | .instr_nor rd rs rt, c =>
    .ok { c with RB := regWrite c.RB rd (4294967295 ^^^ (c.RB rs ||| c.RB rt)) }
  | .sll rd rt shamt, c =>
    .ok { c with RB := regWrite c.RB rd (u32n (c.RB rt <<< shamt)) }
  | .srl rd rt shamt, c =>
    .ok { c with RB := regWrite c.RB rd (c.RB rt >>> shamt) }
  | .sra rd rt shamt, c =>
    .ok { c with RB := regWrite c.RB rd (u32 (Int.fdiv (toSigned (c.RB rt)) (2 ^ shamt))) }
  | .sllv rd rt rs, c =>
    .ok { c with RB := regWrite c.RB rd (u32n (c.RB rt <<< (c.RB rs &&& 31))) }
  | .srlv rd rt rs, c =>
    .ok { c with RB := regWrite c.RB rd (c.RB rt >>> (c.RB rs &&& 31)) }
  | .srav rd rt rs, c =>
    .ok { c with RB := regWrite c.RB rd (u32 (Int.fdiv (toSigned (c.RB rt)) (2 ^ (c.RB rs &&& 31)))) }
  | .mult rs rt, c =>
    let result : Int := toSigned (c.RB rs) * toSigned (c.RB rt)
    .ok { c with lo := u32 result, hi := u32 (Int.fdiv result 4294967296) }
  | .multu rs rt, c =>
    let result : Nat := c.RB rs * c.RB rt
    .ok { c with lo := u32n result, hi := u32n (result >>> 32) }
  | .div rs rt, c =>
    let a := toSigned (c.RB rs)
    let b := toSigned (c.RB rt)
    if b = 0 then
      .error "undefined behavior: signed division by zero"
    else if a = -2147483648 && b = -1 then
      .error "undefined behavior: INT_MIN divided by minus one"
    else
      .ok { c with lo := u32 (Int.tdiv a b), hi := u32 (Int.tmod a b) }
  | .divu rs rt, c =>
    if c.RB rt = 0 then
      .error "undefined behavior: unsigned division by zero"
    else
      .ok { c with lo := c.RB rs / c.RB rt, hi := c.RB rs % c.RB rt }
  | .mfhi rd, c => .ok { c with RB := regWrite c.RB rd c.hi }
  | .mthi rs, c => .ok { c with hi := c.RB rs }
  | .mflo rd, c => .ok { c with RB := regWrite c.RB rd c.lo }
  | .mtlo rs, c => .ok { c with lo := c.RB rs }
  | .j addr, c =>
    .ok { c with npc := (c.pc &&& 4026531840) ||| u32n (addr <<< 2) }
  | .jal addr, c =>
    .ok { c with RB := regWrite c.RB 31 (u32n (c.pc + 4)),
                 npc := (c.pc &&& 4026531840) ||| u32n (addr <<< 2) }
  | .jr rs, c => .ok { c with npc := c.RB rs }
  | .jalr rd rs, c =>
    let rd1 := if rd = 0 then 31 else rd
    .ok { c with npc := c.RB rs, RB := regWrite c.RB rd1 (u32n (c.pc + 4)) }
  | .beq rs rt imm, c =>
    .ok { c with npc := if beq_cond c rs rt then branchTarget c imm else c.npc }
  | .bne rs rt imm, c =>
    .ok { c with npc := if bne_cond c rs rt then branchTarget c imm else c.npc }
  | .blez rs imm, c =>
    .ok { c with npc := if blez_cond c rs then branchTarget c imm else c.npc }
  | .bgtz rs imm, c =>
    .ok { c with npc := if bgtz_cond c rs then branchTarget c imm else c.npc }
  | .bltz rs imm, c =>
    .ok { c with npc := if bltz_cond c rs then branchTarget c imm else c.npc }
  | .bgez rs imm, c =>
    .ok { c with npc := if bgez_cond c rs then branchTarget c imm else c.npc }
  | .bltzal rs imm, c =>
    let c1 : Core := { c with RB := regWrite c.RB 31 (u32n (c.pc + 4)) }
    .ok { c1 with npc := if bltz_cond c1 rs then branchTarget c1 imm else c1.npc }
  | .bgezal rs imm, c =>
    let c1 : Core := { c with RB := regWrite c.RB 31 (u32n (c.pc + 4)) }
    .ok { c1 with npc := if bgez_cond c1 rs then branchTarget c1 imm else c1.npc }
  | .sys_call, c => .ok c
  | .instr_break, _ => .error "instr_break behavior not implemented."

/-- The state `ac_behavior(begin)` establishes, from a zeroed memory image:
all general registers and `hi`/`lo` zeroed, `npc = ac_pc + 4`, and
`RB[29] = AC_RAM_END - 1024` for the first processor (`processors_started = 0`,
`DEFAULT_STACK_SIZE = 256*1024`).  `ramEnd` stands for the external
`AC_RAM_END` parameter. -/
def begin_core (ramEnd : Nat) : Core :=
  { RB := regWrite (fun _ => 0) 29 (u32 ((ramEnd : Int) - 1024)),
    hi := 0, lo := 0, pc := 0, npc := 4, DM := fun _ => 0 }

/-!
## The analyzer (`struct variables`)

The instruction record `mips_instruction` and the analyzer singleton with its
`push` pipeline, hazard detector, branch predictors and superscalar checker.
-/

/-- `mips_instruction::i_type`. -/
inductive IType where
  | kR
  | kI
  | kJ
deriving DecidableEq

/-- `struct mips_instruction`: the record a retired instruction pushes into
the analyzer.  Unsigned fields are `Nat`; `imm` is the signed (`int`)
sign-extended immediate. -/
structure MipsInst where
  type : IType
  op : Nat
  rs : Nat
  rt : Nat
  rd : Nat
  shamt : Nat
  func : Nat
  addr : Nat
  imm : Int

/-- `variables::instructions_dont_write` as a `(op, func)` list. -/
def instructions_dont_write : List (Nat × Nat) :=
  [(0, 8), (0, 12), (0, 13), (4, 0), (5, 0), (6, 0), (7, 0), (1, 0),
   (40, 0), (41, 0), (43, 0), (57, 0)]

/-- `variables::branch_instructions`: beq, bne, blez, bgtz, bltz/bgez. -/
def branch_instructions : List (Nat × Nat) :=
  [(4, 0), (5, 0), (6, 0), (7, 0), (1, 0)]

/-- `variables::ld_instructions`: lb, lbu, lh, lhu, lw. -/
def ld_instructions : List (Nat × Nat) :=
  [(32, 0), (36, 0), (33, 0), (37, 0), (35, 0)]

/-- Register-set masks `Rd=1, Rs=2, Rt=4, Rm=8` of the superscalar checker. -/
def Rd : Nat := 1

/-- Mask bit for `rs`. -/
def Rs : Nat := 2

/-- Mask bit for `rt`. -/
def Rt : Nat := 4

/-- Mask bit for the multiplier registers HI/LO. -/
def Rm : Nat := 8

/-- `variables::InstGroups`. -/
inductive InstGroups where
  | ArithLog
  | DivMult
  | Shift
  | ShiftV
  | JumpR
  | MoveFrom
  | MoveTo
  | ArithLogI
  | LoadI
  | Branch
  | BranchZ
  | LoadStore
  | Jump
  | Trap
deriving DecidableEq

/-- `variables::IGroup`: a resource class with its read/write register masks
and the `(opc, func)` pairs that belong to it. -/
structure IGroup where
  igroup : InstGroups
  readFrom : Nat
  writeTo : Nat
  instOp : List (Nat × Nat)
deriving DecidableEq

/-- `variables::groups`, copied entry by entry from the initializer list
(hex values written in decimal). -/
def groups : List IGroup :=
  [⟨.ArithLog, Rs ||| Rt, Rd,
     [(0, 32), (0, 33), (0, 36), (0, 39), (0, 37),
      (0, 34), (0, 35), (0, 38), (0, 42), (0, 41)]⟩,
   ⟨.DivMult, Rs ||| Rt, Rm, [(0, 26), (0, 27), (0, 24), (0, 25)]⟩,
   ⟨.Shift, Rt, Rd, [(0, 0), (0, 3), (0, 2)]⟩,
   ⟨.ShiftV, Rs ||| Rt, Rd, [(0, 4), (0, 7), (0, 6)]⟩,
   ⟨.JumpR, Rs, 0, [(0, 9), (0, 8)]⟩,
   ⟨.MoveFrom, Rm, Rd, [(0, 16), (0, 18)]⟩,
   ⟨.MoveTo, Rs, Rm, [(0, 17), (0, 19)]⟩,
   ⟨.ArithLogI, Rs, Rt, [(8, 0), (9, 0), (12, 0), (13, 0), (14, 0), (10, 0), (9, 0)]⟩,
   ⟨.LoadI, 0, Rt, [(25, 0), (24, 0)]⟩,
   ⟨.Branch, Rs ||| Rt, 0, [(4, 0), (5, 0)]⟩,
   ⟨.BranchZ, Rs, 0, [(7, 0), (6, 0)]⟩,
   ⟨.LoadStore, Rs ||| Rt, Rs ||| Rt,
     [(32, 0), (36, 0), (33, 0), (37, 0), (35, 0), (40, 0), (41, 0), (43, 0)]⟩,
   ⟨.Jump, 0, 0, [(2, 0), (3, 0)]⟩,
   ⟨.Trap, 0, 0, [(26, 0)]⟩]

/-- The group-search loop of `variables::testSuperscalar`: scan all groups,
keeping the last whose `instOp` contains `(op, func)` (the C++ loop
overwrites the pointer on every match and does not break). -/
def classify (i : MipsInst) : Option IGroup :=
  List.foldl (fun acc g => if g.instOp.contains (i.op, i.func) then some g else acc)
    none groups

/-- `variables::getRegs`: collect the register indices selected by the mask
(the C++ `std::set<int>`; a list with the same membership). -/
def getRegs (i : MipsInst) (regs : Nat) : List Nat :=
  (if regs &&& Rs ≠ 0 then [i.rs] else []) ++
  (if regs &&& Rt ≠ 0 then [i.rt] else []) ++
  (if regs &&& Rd ≠ 0 then [i.rd] else [])

/-- `variables::setHasIntersec`: the nested loop over both sets. -/
def setHasIntersec (A B : List Nat) : Bool :=
  A.any fun a => B.any fun b => a == b

/-- The NOP shape tested in `variables::push` and `variables::read_hazard`:
`op == 0 && rs == 0 && rt == 0 && rd == 0 && func == 0 && imm == 0`. -/
def isNopRecord (i : MipsInst) : Bool :=
  i.op == 0 && i.rs == 0 && i.rt == 0 && i.rd == 0 && i.func == 0 && i.imm == 0

/-- `variables::is_fowarding` (constexpr `true`). -/
def is_fowarding : Bool := true

/-- `variables::kNumberOfStages` (= 2). -/
def kNumberOfStages : Int := 2

/-- `variables::kHistoryDepth` (= 2). -/
def kHistoryDepth : Nat := 2

/-- `variables::kNumberOfStoredInstructions` (= 10). -/
def kNumberOfStoredInstructions : Nat := 10

/-- The analyzer state: the fields of `struct variables` (plus the
superscalar sub-struct `_ss`).  Unsigned counters are `Nat`, `int` counters
are `Int`; `last_write` and `two_level_stages` are total functions over the
index ranges the vectors cover. -/
structure Analyzer where
  number_of_instructions : Nat
  number_of_nops : Nat
  pc_addr : Int
  static_wrong_predictions : Int
  saturating_wrong_predictions : Int
  two_level_wrong_predictions : Int
  total_number_of_branches : Nat
  two_level_history : Nat
  saturating_stage : Int
  two_level_stages : Nat → Int
  number_of_data_hazards : Fin 3 → Nat
  number_of_control_hazards : Fin 3 → Nat
  latest_instructions : List MipsInst
  last_write : Nat → Nat
  ssLoaded : Bool
  ssInstCount : Nat

/-- The state the `variables()` constructor builds (members missing from the
init list are zero because `global` has static storage duration):
`saturating_stage = kNumberOfStages = 2`, the four two-level counters at 2,
34 `last_write` entries at 0, all counters zero. -/
def initAnalyzer : Analyzer :=
  { number_of_instructions := 0, number_of_nops := 0, pc_addr := 0,
    static_wrong_predictions := 0, saturating_wrong_predictions := 0,
    two_level_wrong_predictions := 0, total_number_of_branches := 0,
    two_level_history := 0, saturating_stage := kNumberOfStages,
    two_level_stages := fun _ => kNumberOfStages,
    number_of_data_hazards := fun _ => 0,
    number_of_control_hazards := fun _ => 0,
    latest_instructions := [], last_write := fun _ => 0,
    ssLoaded := false, ssInstCount := 0 }

/-- `hazard_table = { {2, 1, 1}, {1, 2, 3} }`, indexed
`hazard_table[forwarding][pipeline_stage]`. -/
def hazard_table (f : Bool) (ps : Fin 3) : Int :=
  if f then (if ps = 0 then 1 else if ps = 1 then 2 else 3)
  else (if ps = 0 then 2 else 1)

/-- The value `number_of_instructions - last_write[x]` as the C++ computes
it: `unsigned int` minus `int` converts to unsigned and wraps modulo `2^32`,
then the result binds to the `int distance` parameter (gcc: the
two's-complement reinterpretation). -/
def distance (n lw : Nat) : Int :=
  let d := ((n : Int) - (lw : Int)) % 4294967296
  if d < 2147483648 then d else d - 4294967296

/-- `variables::isHazard`: `hazard_table[is_fowarding][pipeline_stage] >= distance`. -/
def isHazard (d : Int) (ps : Fin 3) : Nat :=
  if hazard_table is_fowarding ps ≥ d then 1 else 0

/-- Add `k` hazards to the data counter of stage `ps`. -/
def addData (ps : Fin 3) (k : Nat) (st : Analyzer) : Analyzer :=
  { st with number_of_data_hazards :=
      fun q => if q = ps then st.number_of_data_hazards q + k
               else st.number_of_data_hazards q }

/-- Add `k` hazards to the control counter of stage `ps`. -/
def addControl (ps : Fin 3) (k : Nat) (st : Analyzer) : Analyzer :=
  { st with number_of_control_hazards :=
      fun q => if q = ps then st.number_of_control_hazards q + k
               else st.number_of_control_hazards q }

/-- Whether `latest_instructions[k]` exists and is a load. -/
def isLoadAt (w : List MipsInst) (k : Nat) : Bool :=
  match w[k]? with
  | some i => ld_instructions.contains (i.op, i.func)
  | none => false

/-- The `load` flag of `variables::read_hazard`: a load in the lookback
slice the pipeline stage may see (window index 0 always; index 1 for k7 and
k13; index 2 for k13 only). -/
def loadInSlice (w : List MipsInst) (ps : Fin 3) : Bool :=
  isLoadAt w 0
  || (decide (ps ≠ 0) && isLoadAt w 1)
  || (decide (ps = 2) && isLoadAt w 2)

/-- `variables::read_hazard`. -/
def read_hazard (i : MipsInst) (ps : Fin 3) (st : Analyzer) : Analyzer :=
  if isNopRecord i then
    { st with
      number_of_nops := if ps = 0 then st.number_of_nops + 1 else st.number_of_nops,
      last_write := fun j => if j < 34 then st.last_write j + 1 else st.last_write j }
  else
    let load := loadInSlice st.latest_instructions ps
    if is_fowarding && !load then st
    else
      let n := st.number_of_instructions
      match i.type with
      | .kR =>
        if i.func = 13 || i.func = 12 then st
        else if i.func = 16 then
          addData ps (isHazard (distance n (st.last_write 32)) ps) st
        else if i.func = 18 then
          addData ps (isHazard (distance n (st.last_write 33)) ps) st
        else if i.func = 17 || i.func = 19 then
          addData ps (isHazard (distance n (st.last_write i.rs)) ps) st
        else if i.func = 8 || i.func = 9 then
          addControl ps (isHazard (distance n (st.last_write i.rs)) ps) st
        else if i.shamt ≠ 0 then
          addData ps (isHazard (distance n (st.last_write i.rt)) ps) st
        else if i.rs ≠ 0 && i.rt ≠ 0 then
          addData ps (isHazard (distance n (st.last_write i.rs)) ps |||
                      isHazard (distance n (st.last_write i.rt)) ps) st
        else if i.rs ≠ 0 then
          addData ps (isHazard (distance n (st.last_write i.rs)) ps) st
        else if i.rt ≠ 0 then
          addData ps (isHazard (distance n (st.last_write i.rt)) ps) st
        else st
      | .kI =>
        if i.op = 15 then st
        else if (i.op = 4 || i.op = 5) && (i.rs ≠ 0 || i.rt ≠ 0) then
          addControl ps (isHazard (distance n (st.last_write i.rs)) ps |||
                         isHazard (distance n (st.last_write i.rt)) ps) st
        else if branch_instructions.contains (i.op, i.func) then
          addControl ps (isHazard (distance n (st.last_write i.rs)) ps) st
        else if (i.op = 40 || i.op = 41 || i.op = 43) && (i.rs ≠ 0 && i.rt ≠ 0) then
          addData ps (isHazard (distance n (st.last_write i.rs)) ps |||
                      isHazard (distance n (st.last_write i.rt)) ps) st
        else if (i.op = 40 || i.op = 41 || i.op = 43) && i.rs ≠ 0 then
          addData ps (isHazard (distance n (st.last_write i.rs)) ps) st
        else if (i.op = 40 || i.op = 41 || i.op = 43) && i.rt ≠ 0 then
          addData ps (isHazard (distance n (st.last_write i.rt)) ps) st
        else if i.rs ≠ 0 then
          addData ps (isHazard (distance n (st.last_write i.rs)) ps) st
        else st
      | .kJ => st

/-- Overwrite `last_write[x]` with the current `number_of_instructions`. -/
def setLastWrite (x : Nat) (st : Analyzer) : Analyzer :=
  { st with last_write :=
      fun j => if j = x then st.number_of_instructions else st.last_write j }

/-- `variables::write_hazard`.  Note the source's NOP test here does not
inspect `rd`. -/
def write_hazard (i : MipsInst) (st : Analyzer) : Analyzer :=
  if i.type = .kJ
     || instructions_dont_write.contains (i.op, i.func)
     || (i.op == 0 && i.rs == 0 && i.rt == 0 && i.func == 0 && i.imm == 0) then
    st
  else if i.func = 24 || i.func = 25 || i.func = 26 || i.func = 27 then
    setLastWrite 33 (setLastWrite 32 st)
  else if i.func = 17 then setLastWrite 32 st
  else if i.func = 19 then setLastWrite 33 st
  else if i.type = .kR then setLastWrite i.rd st
  else setLastWrite i.rt st

/-- `variables::actual_branch_taken`: 0 if `inst` is not a conditional
branch, 1 for a branch not taken, 2 for a branch taken; increments
`total_number_of_branches` for a branch.  The comparisons are the source's:
they are performed on the decoded `unsigned int` register-index fields
`inst.rs` / `inst.rt`, so `inst.rs >= 0` always holds, `inst.rs < 0` never,
and `inst.rs <= 0` / `inst.rs > 0` test the index against zero. -/
def actual_branch_taken (i : MipsInst) (st : Analyzer) : Nat × Analyzer :=
  if i.type = .kI && branch_instructions.contains (i.op, i.func) then
    let t : Nat :=
      if i.op = 1 then
        (if i.rt ≠ 0 then (if i.rs ≥ 0 then 1 else 0) else 0)
      else if i.op = 4 then (if i.rs = i.rt then 1 else 0)
      else if i.op = 5 then (if i.rs ≠ i.rt then 1 else 0)
      else if i.op = 6 then (if i.rs ≤ 0 then 1 else 0)
      else if i.op = 7 then (if i.rs > 0 then 1 else 0)
      else 0
    (1 + t, { st with total_number_of_branches := st.total_number_of_branches + 1 })
  else (0, st)

/-- `variables::static_branch_prediction`:
`static_wrong_predictions += taken != (inst.imm < pc_addr)`
(C++ precedence parses the expression this way). -/
def static_branch_prediction (taken : Bool) (i : MipsInst) (st : Analyzer) : Analyzer :=
  { st with static_wrong_predictions :=
      st.static_wrong_predictions +
        (if taken ≠ decide (i.imm < st.pc_addr) then 1 else 0) }

/-- `variables::read_saturating_counter`: the misprediction increment,
`taken != (stage >= kNumberOfStages)`. -/
def read_saturating_counter (taken : Bool) (stage : Int) : Int :=
  if taken ≠ decide (stage ≥ kNumberOfStages) then 1 else 0

/-- `variables::update_saturating_counter`:
`stage = max(min(stage + 2*taken - 1, 2*kNumberOfStages - 1), 0)`. -/
def update_saturating_counter (taken : Bool) (stage : Int) : Int :=
  max (min (stage + 2 * (if taken then 1 else 0) - 1) (2 * kNumberOfStages - 1)) 0

/-- `variables::saturating_branch_prediction`: read (count misprediction),
then update the counter. -/
def saturating_branch_prediction (taken : Bool) (st : Analyzer) : Analyzer :=
  let st1 := { st with saturating_wrong_predictions :=
      st.saturating_wrong_predictions + read_saturating_counter taken st.saturating_stage }
  { st1 with saturating_stage := update_saturating_counter taken st1.saturating_stage }

/-- `variables::update_two_level_history`:
`(two_level_history << 1 | taken) & ((1 << kHistoryDepth) - 1)`. -/
def update_two_level_history (taken : Bool) (h : Nat) : Nat :=
  ((h <<< 1) ||| (if taken then 1 else 0)) &&& ((1 <<< kHistoryDepth) - 1)

/-- `variables::two_level_branch_predictor`. -/
def two_level_branch_predictor (taken : Bool) (st : Analyzer) : Analyzer :=
  let s := st.two_level_stages st.two_level_history
  { st with
    two_level_wrong_predictions :=
      st.two_level_wrong_predictions + read_saturating_counter taken s,
    two_level_stages :=
      fun j => if j = st.two_level_history then update_saturating_counter taken s
               else st.two_level_stages j,
    two_level_history := update_two_level_history taken st.two_level_history }

/-- `variables::push`: hazard checks for the three depths, write-side
bookkeeping, branch-outcome computation (`if (taken--)` feeds `taken - 1`
to the predictors as a bool), then the window update (a NOP is pushed and
immediately popped; the window is trimmed to 10 records). -/
def push (i : MipsInst) (st : Analyzer) : Analyzer :=
  let st := read_hazard i 0 st
  let st := read_hazard i 1 st
  let st := read_hazard i 2 st
  let st := write_hazard i st
  let p := actual_branch_taken i st
  let taken := p.1
  let st := p.2
  let st :=
    if taken ≠ 0 then
      let b : Bool := taken - 1 ≠ 0
      two_level_branch_predictor b
        (saturating_branch_prediction b (static_branch_prediction b i st))
    else st
  let w := i :: st.latest_instructions
  let w := if isNopRecord i then w.tail else w
  let w := if w.length > kNumberOfStoredInstructions then w.dropLast else w
  { st with latest_instructions := w }

/-- `variables::testSuperscalar`, called right after `push`. -/
def testSuperscalar (st : Analyzer) : Analyzer :=
  match st.latest_instructions with
  | i_cur :: i_prev :: _ =>
    if st.ssLoaded then { st with ssLoaded := false }
    else
      match classify i_prev, classify i_cur with
      | some g_prev, some g_cur =>
        if g_prev.igroup = g_cur.igroup ∧ g_cur.igroup ≠ .ArithLog ∧
            g_cur.igroup ≠ .ArithLogI then st
        else if (g_prev.readFrom &&& g_cur.writeTo &&& Rm ≠ 0) ∨
                (g_prev.writeTo &&& g_cur.readFrom &&& Rm ≠ 0) ∨
                (g_prev.writeTo &&& g_cur.writeTo &&& Rm ≠ 0) then st
        else if setHasIntersec (getRegs i_prev g_prev.readFrom) (getRegs i_cur g_cur.writeTo)
             || setHasIntersec (getRegs i_cur g_cur.readFrom) (getRegs i_prev g_prev.writeTo)
             || setHasIntersec (getRegs i_prev g_prev.writeTo) (getRegs i_cur g_cur.writeTo) then st
        else { st with ssLoaded := true, ssInstCount := st.ssInstCount + 1 }
      | _, _ => st
  | _ => st

/-- One retirement as the behavior chain runs it: the generic
`ac_behavior(instruction)` increments `number_of_instructions` and stores
`npc` into `pc_addr`, then the format behavior pushes the record and runs
the superscalar test. -/
def retireStep (i : MipsInst) (npc : Int) (st : Analyzer) : Analyzer :=
  testSuperscalar (push i
    { st with number_of_instructions := st.number_of_instructions + 1,
              pc_addr := npc })

/-!
## Spec-side definitions

Definitions written from the specification's words (not from the source),
used to compare the source's computation against the stated one.
-/

/-- Spec-side overflow condition for `add` (claim C2): the two operands
`R[rs]` and `R[rt]` have the same sign bit and that sign differs from the
sign bit of the 32-bit wrapped sum. -/
def addOverflowSpec (a b : Nat) : Bool :=
  signBit a == signBit b && signBit a != signBit (u32n (a + b))

/-- Spec-side overflow condition for `addi` (claim C2): `R[rs]` and the
sign-extended immediate share a sign bit that differs from the wrapped
sum's. -/
def addiOverflowSpec (a : Nat) (imm : Int) : Bool :=
  signBit a == signBitI imm && signBit a != signBit (u32 ((a : Int) + imm))

/-- Spec-side static prediction (claim C3): predict taken exactly when the
sign-extended immediate is negative (backward target). -/
def staticPredictSpec (imm : Int) : Bool := imm < 0

/-- Whether an `Except` result is a success (execution continued). -/
def isOkB (e : Except String Core) : Bool :=
  match e with
  | .ok _ => true
  | .error _ => false

/-!
## Concrete fixtures for the claims
-/

/-- The encoded NOP record (`op = rs = rt = rd = func = imm = 0`, R-type). -/
def nopRec : MipsInst := ⟨.kR, 0, 0, 0, 0, 0, 0, 0, 0⟩

/-- Record for `addiu r1, r0, 5`. -/
def addiuR1 : MipsInst := ⟨.kI, 9, 0, 1, 0, 0, 0, 0, 5⟩

/-- Record for `jr r1`. -/
def jrR1 : MipsInst := ⟨.kR, 0, 1, 0, 0, 0, 8, 0, 0⟩

/-- Record for `lw r0, 0(r1)` — a load whose destination is register 0. -/
def lwR0 : MipsInst := ⟨.kI, 35, 1, 0, 0, 0, 0, 0, 0⟩

/-- Record for `jr r0`. -/
def jrR0 : MipsInst := ⟨.kR, 0, 0, 0, 0, 0, 8, 0, 0⟩

/-- Record for `beq r1, r2, +8` as the analyzer receives it. -/
def c1rec : MipsInst := ⟨.kI, 4, 1, 2, 0, 0, 0, 0, 8⟩

/-- Record for a conditional branch with immediate `+4` (forward target). -/
def c3rec : MipsInst := ⟨.kI, 4, 1, 2, 0, 0, 0, 0, 4⟩

/-- A core state with `R[1] = R[2] = 5` (equal executed operand values). -/
def c1core : Core :=
  { RB := fun j => if j = 1 || j = 2 then 5 else 0,
    hi := 0, lo := 0, pc := 64, npc := 68, DM := fun _ => 0 }

/-- A core state with `R[1] = 0x7FFFFFFF` and `R[2] = 1`: a real signed
overflow for `R[1] + R[2]` and for `R[1] + 1`. -/
def c2core : Core :=
  { RB := fun j => if j = 1 then 2147483647 else if j = 2 then 1 else 0,
    hi := 0, lo := 0, pc := 0, npc := 4, DM := fun _ => 0 }

/-- A core state with `R[1] = 7` and `R[2] = 0` (zero divisor). -/
def c9core : Core :=
  { RB := fun j => if j = 1 then 7 else 0,
    hi := 0, lo := 0, pc := 0, npc := 4, DM := fun _ => 0 }

/-- Record for `add r0, r1, r2` (older superscalar pair member; writes
`rd = 0`). -/
def ssPrevInst : MipsInst := ⟨.kR, 0, 1, 2, 0, 0, 32, 0, 0⟩

/-- Record for `addi r3, r0, 5` (newer superscalar pair member; reads
`rs = 0`). -/
def ssCurInst : MipsInst := ⟨.kI, 8, 0, 3, 0, 0, 0, 0, 5⟩

/-- Analyzer state whose window holds the superscalar pair
(newest first). -/
def ssState : Analyzer :=
  { initAnalyzer with latest_instructions := [ssCurInst, ssPrevInst] }

/-- The `ArithLog` group entry of `groups`. -/
def gArithLog : IGroup :=
  ⟨.ArithLog, 6, 1,
   [(0, 32), (0, 33), (0, 36), (0, 39), (0, 37),
    (0, 34), (0, 35), (0, 38), (0, 42), (0, 41)]⟩

/-- The `ArithLogI` group entry of `groups`. -/
def gArithLogI : IGroup :=
  ⟨.ArithLogI, 2, 4, [(8, 0), (9, 0), (12, 0), (13, 0), (14, 0), (10, 0), (9, 0)]⟩

/-!
## Theorems
-/

/-- Reading register 0 is unaffected by any write: either the write targets
index 0 and is discarded, or it targets another index. -/
theorem regWrite_apply_zero (r : Nat → Nat) (i v : Nat) : regWrite r i v 0 = r 0 := by
  by_cases h : i = 0
  · simp [regWrite, h]
  · simp [regWrite, h, Ne.symm h]

/-- Claim C1: the claim fails on the code.  For the retired branch
`beq r1, r2` in a state with `R[1] = R[2]` (both 5), the predicate of
`ac_behavior(beq)` on the executed register values is true (the branch is
taken: the executed `npc` becomes the branch target 96, not the fall-through
68), yet `actual_branch_taken` returns 1 — "branch, not taken" — because it
compares the register *indices* `inst.rs == inst.rt` (1 = 2 is false), and
that bit is what is fed to all three predictors. -/
theorem c1_branch_taken_bug :
    beq_cond c1core 1 2 = true ∧
    (execInst (Instr.beq 1 2 8) c1core).toOption.map Core.npc = some 96 ∧
    c1core.npc = 68 ∧
    (actual_branch_taken c1rec initAnalyzer).1 = 1 := by
  decide

/-- Claim C2: the claim fails on the code.  With `R[1] = 0x7FFFFFFF` and
`R[2] = 1`, `add r3, r1, r2` is a real signed overflow (the spec-side
condition holds), yet `ac_behavior(add)` does not raise it and execution
continues: its test compares the signs of `RB[rs]` and `RB[rd]` (the sum)
instead of the two operands.  Likewise `addi r1, r1, 1` overflows, but
because `rt == rs` the test re-reads the overwritten register and can never
fire. -/
theorem c2_add_overflow_bug :
    (isOkB (execInst (Instr.add 3 1 2) c2core) = true ∧
     addOverflowSpec (c2core.RB 1) (c2core.RB 2) = true) ∧
    (isOkB (execInst (Instr.addi 1 1 1) c2core) = true ∧
     addiOverflowSpec (c2core.RB 1) 1 = true) := by
  decide

/-- Claim C3: the claim fails on the code.  For a retired branch with
immediate `+4` (forward target, spec-side prediction "not taken") and actual
outcome "not taken", the spec says `static_mispreds` must not change; the
source's `static_branch_prediction` compares `inst.imm < pc_addr` instead of
`imm < 0`, so with `pc_addr = 4096` it counts a misprediction. -/
theorem c3_static_prediction_bug :
    (static_branch_prediction false c3rec
        { initAnalyzer with pc_addr := 4096 }).static_wrong_predictions = 1 ∧
    staticPredictSpec c3rec.imm = false := by
  decide

/-- Claim C4: the claim fails on the code.  Retiring one encoded NOP from
the initial analyzer state advances `number_of_instructions` by one and
leaves every hazard and misprediction counter unchanged, but increments
every `last_write[0..34)` entry by *three*, not one: the incrementing loop
sits in `read_hazard`, which `push` calls once per pipeline depth. -/
theorem c4_nop_last_write_bug :
    (retireStep nopRec 4 initAnalyzer).number_of_instructions = 1 ∧
    (∀ j < 34, (retireStep nopRec 4 initAnalyzer).last_write j = 3) ∧
    (∀ ps : Fin 3,
      (retireStep nopRec 4 initAnalyzer).number_of_data_hazards ps = 0 ∧
      (retireStep nopRec 4 initAnalyzer).number_of_control_hazards ps = 0) ∧
    (retireStep nopRec 4 initAnalyzer).static_wrong_predictions = 0 ∧
    (retireStep nopRec 4 initAnalyzer).saturating_wrong_predictions = 0 ∧
    (retireStep nopRec 4 initAnalyzer).two_level_wrong_predictions = 0 ∧
    (retireStep nopRec 4 initAnalyzer).total_number_of_branches = 0 := by
  decide

/-- Claim C5 counterexample: `addiu r1, r0, 5` immediately followed by
`jr r1`.  The producer of `r1` is at distance 1, within every depth's
hazard threshold, and no load is in any lookback slice — the claim says the
control-hazard counters must still be incremented, but all three stay 0:
when no load is in the slice, `read_hazard` returns before the control-
hazard classification. -/
theorem c5_control_hazard_skipped_cex :
    (∀ ps : Fin 3,
      (retireStep jrR1 8 (retireStep addiuR1 4 initAnalyzer)).number_of_control_hazards ps = 0 ∧
      isHazard (distance 2 1) ps = 1) ∧
    (retireStep addiuR1 4 initAnalyzer).last_write 1 = 1 ∧
    (retireStep addiuR1 4 initAnalyzer).number_of_instructions = 1 ∧
    (∀ ps : Fin 3,
      loadInSlice (retireStep addiuR1 4 initAnalyzer).latest_instructions ps = false) := by
  decide

/-- Claim C5 (amended): for every retired non-NOP instruction and each
pipeline depth, when no load occupies that depth's lookback slice of the
window, the *entire* hazard check for that depth is skipped: neither the
data-hazard nor the control-hazard counter of that depth changes. -/
theorem c5_no_load_skips_all (i : MipsInst) (ps : Fin 3) (st : Analyzer)
    (hnop : isNopRecord i = false)
    (hload : loadInSlice st.latest_instructions ps = false) :
    (read_hazard i ps st).number_of_data_hazards ps = st.number_of_data_hazards ps ∧
    (read_hazard i ps st).number_of_control_hazards ps = st.number_of_control_hazards ps := by
  simp [read_hazard, hnop, hload, is_fowarding]

/-- Witness for the amended C5: the concrete `jr r1` retired on the empty
window changes no hazard counter. -/
theorem c5_no_load_skips_all_witness :
    (read_hazard jrR1 0 initAnalyzer).number_of_data_hazards 0 =
      initAnalyzer.number_of_data_hazards 0 ∧
    (read_hazard jrR1 0 initAnalyzer).number_of_control_hazards 0 =
      initAnalyzer.number_of_control_hazards 0 :=
  c5_no_load_skips_all jrR1 0 initAnalyzer rfl rfl

/-- Claim C6: the saturating two-bit predictor.  The constructor initializes
`saturating_stage` to 2; on each consulted branch the misprediction counter
grows by exactly one when the actual outcome differs from "predict taken iff
`sat_state ≥ 2`"; the state then moves by `+1` on taken and `-1` on not
taken, clamped so that after every update `0 ≤ sat_state ≤ 3`. -/
theorem c6_saturating_predictor :
    initAnalyzer.saturating_stage = 2 ∧
    ∀ (st : Analyzer) (taken : Bool),
      (saturating_branch_prediction taken st).saturating_wrong_predictions
          = st.saturating_wrong_predictions +
            (if taken ≠ decide (st.saturating_stage ≥ 2) then 1 else 0) ∧
      (saturating_branch_prediction taken st).saturating_stage
          = max (min (st.saturating_stage + (if taken then 1 else -1)) 3) 0 ∧
      0 ≤ (saturating_branch_prediction taken st).saturating_stage ∧
      (saturating_branch_prediction taken st).saturating_stage ≤ 3 := by
  refine ⟨rfl, fun st taken => ⟨rfl, ?_, ?_, ?_⟩⟩ <;>
    cases taken <;>
      simp [saturating_branch_prediction, update_saturating_counter,
        kNumberOfStages] <;>
      omega

/-- Claim C7: after `begin` and after every retired instruction,
`R[0] = 0`.  The register bank itself is declared outside `src/`
(`mips_isa.H` / ArchC); per the spec it discards writes to register 0
(see `regWrite`), so `ac_behavior(begin)` establishes the invariant and
every instruction behavior that completes preserves it — including
`addiu` with `rt = 0`, `add` with `rd = 0` and loads into `rt = 0`. -/
theorem c7_register_zero_invariant :
    (∀ ramEnd : Nat, (begin_core ramEnd).RB 0 = 0) ∧
    ∀ (i : Instr) (c c' : Core), c.RB 0 = 0 → execInst i c = Except.ok c' →
      c'.RB 0 = 0 := by
  constructor
  · intro ramEnd
    simp [begin_core, regWrite]
  · intro i c c' h0 h
    cases i <;>
      simp only [execInst, Except.ok.injEq] at h <;>
      (repeat' split at h) <;>
      first
        | (subst h; simp [regWrite_apply_zero, h0])
        | (injection h with h; subst h; simp [regWrite_apply_zero, h0])
        | (injection h)

/-- Witness for C7: `addiu r0, r3, 5` retired on the post-`begin` state
leaves `R[0]` at zero. -/
theorem c7_register_zero_invariant_witness : (begin_core 4194304).RB 0 = 0 :=
  c7_register_zero_invariant.2 (Instr.addiu 0 3 5) (begin_core 4194304)
    (begin_core 4194304) rfl rfl

/-- Claim C8 counterexample: `lw r0, 0(r1)` (a load whose destination is
register 0, recording `last_write[0] = 1`) immediately followed by `jr r0`,
whose only read dependency is `rs = 0`.  The claim says all hazard counters
stay unchanged; in fact all three control-hazard counters become 1, because
the `jr`/`jalr` path reads `last_write[inst.rs]` without a register-0
guard. -/
theorem c8_reg0_hazard_cex :
    jrR0.rs = 0 ∧
    (∀ ps : Fin 3,
      (retireStep jrR0 8 (retireStep lwR0 4 initAnalyzer)).number_of_control_hazards ps = 1) := by
  decide

/-- Claim C8 (amended): the register-0 guards exist only on some operand
paths.  First conjunct: a generic R-type instruction (none of the special
function codes, zero shift amount) whose `rs` and `rt` are both 0 leaves
both hazard counters of every depth unchanged.  Second conjunct: the
`jr`/`jalr` path is unguarded — a `jr` with `rs = 0`, retired while a load
occupies the lookback slice, adds `isHazard(retired - last_write[0])` to the
control-hazard counter, so register 0 can contribute a hazard there. -/
theorem c8_reg0_guards_amended :
    (∀ (op rd addr : Nat) (imm : Int) (func : Nat) (ps : Fin 3) (st : Analyzer),
      func ∉ ([13, 12, 16, 18, 17, 19, 8, 9] : List Nat) →
      (read_hazard ⟨.kR, op, 0, 0, rd, 0, func, addr, imm⟩ ps st).number_of_data_hazards ps
          = st.number_of_data_hazards ps ∧
      (read_hazard ⟨.kR, op, 0, 0, rd, 0, func, addr, imm⟩ ps st).number_of_control_hazards ps
          = st.number_of_control_hazards ps) ∧
    (∀ (op rt rd shamt addr : Nat) (imm : Int) (ps : Fin 3) (st : Analyzer),
      loadInSlice st.latest_instructions ps = true →
      (read_hazard ⟨.kR, op, 0, rt, rd, shamt, 8, addr, imm⟩ ps st).number_of_control_hazards ps
          = st.number_of_control_hazards ps +
            isHazard (distance st.number_of_instructions (st.last_write 0)) ps) := by
  constructor
  · intro op rd addr imm func ps st hfn
    simp only [List.mem_cons, List.not_mem_nil, or_false, not_or] at hfn
    obtain ⟨h13, h12, h16, h18, h17, h19, h8, h9⟩ := hfn
    by_cases hn : isNopRecord ⟨.kR, op, 0, 0, rd, 0, func, addr, imm⟩ = true
    · unfold read_hazard
      rw [if_pos hn]
      exact ⟨rfl, rfl⟩
    · unfold read_hazard
      rw [if_neg hn]
      by_cases hl : (is_fowarding && !loadInSlice st.latest_instructions ps) = true
      · rw [if_pos hl]
        exact ⟨rfl, rfl⟩
      · rw [if_neg hl]
        dsimp only
        rw [if_neg (by simp [h13, h12]), if_neg h16, if_neg h18,
          if_neg (by simp [h17, h19]), if_neg (by simp [h8, h9]),
          if_neg (by simp), if_neg (by simp), if_neg (by simp), if_neg (by simp)]
        exact ⟨rfl, rfl⟩
  · intro op rt rd shamt addr imm ps st hload
    have hnop : isNopRecord ⟨.kR, op, 0, rt, rd, shamt, 8, addr, imm⟩ = false := by
      simp [isNopRecord]
    unfold read_hazard
    rw [hnop]
    rw [if_neg (by simp)]
    rw [hload]
    rw [if_neg (by simp [is_fowarding])]
    dsimp only
    rw [if_neg (by simp), if_neg (by simp), if_neg (by simp), if_neg (by simp),
      if_pos (by simp)]
    simp [addControl]

/-- Witness for the amended C8: `add r5, r0, r0` on the initial state leaves
the 5-stage counters unchanged, while `jr r0` retired right after
`lw r0, 0(r1)` adds one control hazard computed from `last_write[0]`. -/
theorem c8_reg0_guards_amended_witness :
    ((read_hazard ⟨.kR, 0, 0, 0, 5, 0, 32, 0, 0⟩ 0 initAnalyzer).number_of_data_hazards 0
        = initAnalyzer.number_of_data_hazards 0 ∧
     (read_hazard ⟨.kR, 0, 0, 0, 5, 0, 32, 0, 0⟩ 0 initAnalyzer).number_of_control_hazards 0
        = initAnalyzer.number_of_control_hazards 0) ∧
    (read_hazard jrR0 0 (retireStep lwR0 4 initAnalyzer)).number_of_control_hazards 0
        = (retireStep lwR0 4 initAnalyzer).number_of_control_hazards 0 +
          isHazard (distance (retireStep lwR0 4 initAnalyzer).number_of_instructions
            ((retireStep lwR0 4 initAnalyzer).last_write 0)) 0 :=
  ⟨c8_reg0_guards_amended.1 0 5 0 0 32 0 initAnalyzer (by decide),
   c8_reg0_guards_amended.2 0 0 0 0 0 0 0 (retireStep lwR0 4 initAnalyzer) (by decide)⟩

/-- Claim C9: the claim fails on the code.  With a zero divisor
(`R[2] = 0`), `ac_behavior(div)` and `ac_behavior(divu)` execute a raw C++
division — undefined behavior that traps on real hardware — instead of
producing deterministic placeholder values and continuing: the embedding's
error branch is reached. -/
theorem c9_div_by_zero_bug :
    c9core.RB 2 = 0 ∧
    isOkB (execInst (Instr.div 1 2) c9core) = false ∧
    isOkB (execInst (Instr.divu 1 2) c9core) = false := by
  decide

/-- Claim C10: the superscalar pair checker treats register 0 like any
other register.  For any window whose two newest records classify into
groups `g_prev`/`g_cur`, if register 0 lies in one of the three read/write
set combinations `testSuperscalar` intersects, the pair is rejected:
`super_pairs` (`ssInstCount`) is not incremented and the latch stays
clear. -/
theorem c10_superscalar_reg0 (st : Analyzer) (i_cur i_prev : MipsInst)
    (rest : List MipsInst) (g_prev g_cur : IGroup)
    (hw : st.latest_instructions = i_cur :: i_prev :: rest)
    (hL : st.ssLoaded = false)
    (hp : classify i_prev = some g_prev) (hc : classify i_cur = some g_cur)
    (h0 : (0 ∈ getRegs i_prev g_prev.readFrom ∧ 0 ∈ getRegs i_cur g_cur.writeTo) ∨
          (0 ∈ getRegs i_cur g_cur.readFrom ∧ 0 ∈ getRegs i_prev g_prev.writeTo) ∨
          (0 ∈ getRegs i_prev g_prev.writeTo ∧ 0 ∈ getRegs i_cur g_cur.writeTo)) :
    (testSuperscalar st).ssInstCount = st.ssInstCount ∧
    (testSuperscalar st).ssLoaded = false := by
  have hint : ∀ A B : List Nat, 0 ∈ A → 0 ∈ B → setHasIntersec A B = true := by
    intro A B hA hB
    simp only [setHasIntersec, List.any_eq_true, beq_iff_eq]
    exact ⟨0, hA, 0, hB, rfl⟩
  have hone : (setHasIntersec (getRegs i_prev g_prev.readFrom) (getRegs i_cur g_cur.writeTo)
      || setHasIntersec (getRegs i_cur g_cur.readFrom) (getRegs i_prev g_prev.writeTo)
      || setHasIntersec (getRegs i_prev g_prev.writeTo) (getRegs i_cur g_cur.writeTo)) = true := by
    rcases h0 with ⟨ha, hb⟩ | ⟨ha, hb⟩ | ⟨ha, hb⟩ <;>
      simp [hint _ _ ha hb]
  unfold testSuperscalar
  rw [hw]
  simp only [hL, Bool.false_eq_true, if_false, hp, hc, hone, if_true, ite_self]
  refine ⟨?_, ?_⟩ <;> first | rfl | trivial

/-- Witness for C10: the pair `add r0, r1, r2` then `addi r3, r0, 5`
satisfies every other co-issue condition but intersects only in register 0
(write set `{0}` of the older against read set `{0}` of the newer); it is
rejected. -/
theorem c10_superscalar_reg0_witness :
    (testSuperscalar ssState).ssInstCount = ssState.ssInstCount ∧
    (testSuperscalar ssState).ssLoaded = false :=
  c10_superscalar_reg0 ssState ssCurInst ssPrevInst [] gArithLog gArithLogI rfl rfl
    (by decide) (by decide) (Or.inr (Or.inl ⟨by decide, by decide⟩))

end MipsSim
